import Mathlib

/-!
Shallow embedding of `src/streamlit_app.py` (copybot): the data model,
the session-state transitions and the pure string processing the UI does,
together with the theorems settling the specification claims.

The external `agent_framework` module is not part of the repository source;
its data shapes (`BrandGuidelines`, `CopyConstraints`, `CopyRequest`,
`GeneratedCopy`) are modelled from the spec, and the agent itself is an
opaque behavior parameter.
-/

namespace Copybot

/-! ### Python string primitives

`str.strip` / `str.lower` / `str.split(sep)` for a one-character separator,
modelled over `List Char` so proofs can proceed by structural induction. -/

/-- The characters Python `str.strip()` removes (ASCII whitespace). -/
def pyIsSpace (c : Char) : Bool :=
  c == ' ' || c == '\t' || c == '\n' || c == '\x0d' || c == '\x0b' || c == '\x0c'

/-- `str.strip()` on a character list: drop whitespace at both ends. -/
def pyStripList (l : List Char) : List Char :=
  ((l.dropWhile pyIsSpace).reverse.dropWhile pyIsSpace).reverse

/-- Python `s.strip()`. -/
def pyStrip (s : String) : String :=
  String.mk (pyStripList s.data)

/-- Python `s.lower()` (ASCII). -/
def pyLower (s : String) : String :=
  String.mk (s.data.map Char.toLower)

/-- Python `s.split(sep)` for a single-character separator, on character
lists.  `[] ↦ [[]]`, every separator occurrence produces a boundary, empty
pieces are kept. -/
def splitOnChar (sep : Char) : List Char → List (List Char)
  | [] => [[]]
  | c :: rest =>
    if c == sep then
      [] :: splitOnChar sep rest
    else
      match splitOnChar sep rest with
      | [] => [[c]]
      | p :: ps => (c :: p) :: ps

/-- Python `s.split(sep)` for a single-character separator. -/
def pySplit (sep : Char) (s : String) : List String :=
  (splitOnChar sep s.data).map String.mk

/-! ### Data model

Record shapes from spec §3 (the `agent_framework` module is external to the
repository).  `compliance_score` is a rational standing for the Python float;
timestamps are carried as their ISO string. -/

structure BrandGuidelines where
  brand_name : String
  tone_of_voice : List String
  key_messaging : List String
  avoid_words : List String
  preferred_words : List String
  style_rules : List (String × String)
  target_audience : String
deriving DecidableEq, Repr

structure CopyConstraints where
  max_length : Nat
  min_length : Nat
  format_type : String
  required_columns : List String
  tone : String
  call_to_action_required : Bool
deriving DecidableEq, Repr

/-- One uploaded file as the UI sees it (`file.name`, `file.type`,
`file.read()`). -/
structure UploadedFile where
  name : String
  ftype : String
  fcontent : List Nat
deriving DecidableEq, Repr

/-- The per-file dict built at lines 227-231:
`{"type": ..., "size": ..., "content": ...}`. -/
structure FileData where
  ftype : String
  fsize : Nat
  fcontent : List Nat
deriving DecidableEq, Repr

/-- `input_data` dict of lines 244-248. -/
structure InputData where
  main_content : String
  files : List (String × FileData)
  content_type : String
deriving DecidableEq, Repr

structure CopyRequest where
  content_type : String
  input_data : InputData
  target_format : CopyConstraints
  context : String
  reference_copies : Option (List String)
deriving DecidableEq, Repr

/-- Generated content: either a table (ordered rows of named cells) or
plain text, per spec §3. -/
inductive Content where
  | table : List (List (String × String)) → Content
  | plain : String → Content
deriving DecidableEq, Repr

structure GeneratedCopy where
  content : Content
  word_count : Nat
  compliance_score : ℚ
  timestamp : String
  request_id : String
  metadata : List (String × String)
deriving DecidableEq, Repr

/-- The external agent handle: constructed from one `BrandGuidelines`
snapshot (spec §4.3); its generation behavior is an opaque parameter. -/
structure MultiModalCopyAgent where
  guidelines : BrandGuidelines
deriving DecidableEq, Repr

/-- Opaque behavior of the external agent: given the guidelines the agent
was constructed with and a request, return a copy or raise. -/
abbrev AgentBehavior := BrandGuidelines → CopyRequest → Except String GeneratedCopy

/-- `st.session_state`: the three fields initialized at lines 61-66. -/
structure SessionState where
  agent : Option MultiModalCopyAgent
  brand_guidelines : Option BrandGuidelines
  copy_history : List GeneratedCopy
deriving DecidableEq, Repr

/-- Session state at session start: all three fields empty. -/
def initialState : SessionState :=
  { agent := none, brand_guidelines := none, copy_history := [] }

/-- `initialize_agent` (lines 68-71): replace the agent handle with a fresh
`MultiModalCopyAgent(brand_guidelines)` and store the guidelines. -/
def initialize_agent (g : BrandGuidelines) (s : SessionState) : SessionState :=
  { s with agent := some ⟨g⟩, brand_guidelines := some g }

/-! ### Sidebar word-list processing (lines 97-103)

`avoid_words` / `prefer_words`: `input.split(',')`, then the comprehension
`[word.strip().lower() for word in words if word.strip()]`. -/

/-- The word-list pipeline of lines 97-99 and 101-103: split the raw input
on commas, keep the tokens whose strip is non-empty, as `strip().lower()`. -/
def processWordList (s : String) : List String :=
  (pySplit ',' s).filterMap fun word =>
    if pyStrip word = "" then none else some (pyLower (pyStrip word))

/-- The spec-worded variant of the word-list pipeline: split on commas AND
on newlines, trim, lowercase, drop empty tokens.  Stated from the spec
sentence, to be compared with `processWordList` from the source. -/
def specWordList (s : String) : List String :=
  ((pySplit '\n' s).flatMap (pySplit ',')).filterMap fun word =>
    if pyStrip word = "" then none else some (pyLower (pyStrip word))

/-! ### The generate operation (`generate_copy`, lines 212-268) -/

/-- Python dict insertion `file_data[file.name] = v`: overwrite in place if
the key exists, else append (dicts preserve insertion order). -/
def dictInsert (m : List (String × FileData)) (k : String) (v : FileData) :
    List (String × FileData) :=
  if m.any (fun p => p.1 == k) then
    m.map fun p => if p.1 == k then (k, v) else p
  else
    m ++ [(k, v)]

/-- Lines 223-231: read every uploaded file into the `file_data` dict as
`{"type": file.type, "size": len(content), "content": content}`. -/
def processFiles (ufs : List UploadedFile) : List (String × FileData) :=
  ufs.foldl (fun m f => dictInsert m f.name ⟨f.ftype, f.fcontent.length, f.fcontent⟩) []

/-- Line 255: `[ref.strip() for ref in reference_copies.split('\n')
if ref.strip()] if reference_copies else None`. -/
def referenceCopiesField (reference_copies : String) : Option (List String) :=
  if reference_copies ≠ "" then
    some ((pySplit '\n' reference_copies).filterMap fun ref =>
      if pyStrip ref = "" then none else some (pyStrip ref))
  else
    none

/-- The raw form inputs `generate_copy` receives (line 212-213). -/
structure GenArgs where
  content_type : String
  text_input : String
  uploaded_files : List UploadedFile
  context : String
  reference_copies : String
  format_type : String
  min_length : Nat
  max_length : Nat
  required_columns : List String
  copy_tone : String
  cta_required : Bool
deriving DecidableEq, Repr

/-- Lines 234-241: the `CopyConstraints` record built from the form. -/
def buildConstraints (a : GenArgs) : CopyConstraints :=
  { max_length := a.max_length
    min_length := a.min_length
    format_type := a.format_type
    required_columns := a.required_columns
    tone := a.copy_tone
    call_to_action_required := a.cta_required }

/-- Lines 244-256: the `CopyRequest` passed to the agent. -/
def buildRequest (a : GenArgs) : CopyRequest :=
  { content_type := a.content_type
    input_data :=
      { main_content := a.text_input
        files := processFiles a.uploaded_files
        content_type := a.content_type }
    target_format := buildConstraints a
    context := a.context
    reference_copies := referenceCopiesField a.reference_copies }

/-- What the UI reports for one generate click. -/
inductive UIOutcome where
  | validationError : String → UIOutcome
  | agentError : String → UIOutcome
  | success : GeneratedCopy → UIOutcome
deriving DecidableEq, Repr

/-- Result of one `generate_copy` run: the session state afterwards, the
user-visible outcome, and the instrumented trace of agent invocations
(the guidelines the called agent holds, and the request passed). -/
structure GenResult where
  state : SessionState
  outcome : UIOutcome
  agentCalls : List (BrandGuidelines × CopyRequest)
deriving DecidableEq, Repr

/-- `generate_copy` (lines 212-268).  Empty/whitespace-only main content:
error at line 217 and return, before the `try` block.  Otherwise build the
request, invoke `st.session_state.agent.generate_copy(request)` (line 259);
on success append to `copy_history` (line 262), on any raised error fall to
the `except` at line 267-268 with the state untouched.  A `None` agent
raises an attribute error inside the same `try`. -/
def generate_copy (b : AgentBehavior) (s : SessionState) (a : GenArgs) : GenResult :=
  if pyStrip a.text_input = "" then
    ⟨s, .validationError "Please provide main content/description.", []⟩
  else
    let request := buildRequest a
    match s.agent with
    | none =>
      ⟨s, .agentError "Error generating copy: NoneType has no attribute generate_copy", []⟩
    | some ag =>
      match b ag.guidelines request with
      | .ok result =>
        ⟨{ s with copy_history := s.copy_history ++ [result] },
          .success result, [(ag.guidelines, request)]⟩
      | .error e =>
        ⟨s, .agentError ("Error generating copy: " ++ e), [(ag.guidelines, request)]⟩

/-! ### History metrics (`copy_history_interface`, lines 319-327) -/

/-- Line 323: `sum(copy.compliance_score for copy in history) / len(history)`. -/
def avg_compliance (h : List GeneratedCopy) : ℚ :=
  (h.map fun c => c.compliance_score).sum / (h.length : ℚ)

/-- Line 326: `sum(copy.word_count for copy in history) / len(history)`. -/
def avg_words (h : List GeneratedCopy) : ℚ :=
  (h.map fun c => (c.word_count : ℚ)).sum / (h.length : ℚ)

/-- The arithmetic mean of a list of rationals, as the spec words it. -/
def arithmeticMean (xs : List ℚ) : ℚ :=
  xs.sum / (xs.length : ℚ)

/-! ### Settings: clear history (lines 433-437)

Streamlit semantics: a script rerun is triggered by exactly one widget
event, and `st.button(label)` returns `True` only in the rerun that its own
click triggered.  One rerun of `settings_interface` is therefore a function
of which button (if any) was clicked. -/

/-- The button clicked to trigger the current rerun. -/
inductive ButtonClick where
  | clearHistory
  | confirmClearHistory
  | noButton
deriving DecidableEq, Repr

/-- `st.button` during a rerun: `True` iff this very button triggered it. -/
def buttonReturns (clicked btn : ButtonClick) : Bool :=
  clicked == btn

/-- Lines 433-437: one rerun of the clear-history block.
`if st.button("Clear History"): if st.button("Confirm Clear History"):
history = []`. -/
def settingsClearStep (clicked : ButtonClick) (history : List GeneratedCopy) :
    List GeneratedCopy :=
  if buttonReturns clicked .clearHistory then
    if buttonReturns clicked .confirmClearHistory then [] else history
  else
    history

/-! ### History export (`settings_interface`, lines 410-428) -/

/-- `str(result.content)`: plain text is the string itself; a DataFrame is
rendered deterministically (the exact rendering is lossy and irrelevant to
the claims). -/
def strContent : Content → String
  | .plain s => s
  | .table rows =>
    String.intercalate "\n"
      (rows.map fun row =>
        String.intercalate " " (row.map fun cell => cell.1 ++ ": " ++ cell.2))

/-- A JSON value, the image of `json.dumps`/`json.loads` (numbers as
rationals, standing for Python ints and floats, which round-trip exactly
through JSON text). -/
inductive Json where
  | str : String → Json
  | num : ℚ → Json
  | obj : List (String × Json) → Json
  | arr : List Json → Json

/-- Lines 414-420: the export dict built for one history entry. -/
def exportEntry (c : GeneratedCopy) : Json :=
  .obj [("timestamp", .str c.timestamp),
        ("content", .str (strContent c.content)),
        ("word_count", .num (c.word_count : ℚ)),
        ("compliance_score", .num c.compliance_score),
        ("metadata", .obj (c.metadata.map fun p => (p.1, .str p.2)))]

/-- Lines 412-422: `export_data` then `json.dumps` — the JSON document of
the downloaded `copy_history.json`. -/
def exportHistory (h : List GeneratedCopy) : Json :=
  .arr (h.map exportEntry)

/-- Field access on a parsed JSON object. -/
def lookupField (key : String) : List (String × Json) → Option Json
  | [] => none
  | (k, v) :: rest => if k == key then some v else lookupField key rest

/-- What a re-parser reads off one exported entry: its `word_count` and
`compliance_score` fields. -/
structure ParsedEntry where
  word_count : ℚ
  compliance_score : ℚ
deriving DecidableEq, Repr

/-- Parse one exported entry back. -/
def parseEntry : Json → Option ParsedEntry
  | .obj fields =>
    match lookupField "word_count" fields, lookupField "compliance_score" fields with
    | some (.num w), some (.num c) => some ⟨w, c⟩
    | _, _ => none
  | _ => none

/-- Re-parse an exported history document into its entries. -/
def parseExport : Json → Option (List ParsedEntry)
  | .arr items => items.mapM parseEntry
  | _ => none

/-! ### The operations of the program, as a transition system -/

/-- One user-visible operation touching the session state. -/
inductive Op where
  | generate : GenArgs → Op
  | settingsClick : ButtonClick → Op
  | saveGuidelines : BrandGuidelines → Op
  | view : Op

/-- Effect of one operation on the session state. -/
def runOp (b : AgentBehavior) (s : SessionState) : Op → SessionState
  | .generate a => (generate_copy b s a).state
  | .settingsClick btn => { s with copy_history := settingsClearStep btn s.copy_history }
  | .saveGuidelines g => initialize_agent g s
  | .view => s

/-- Run a sequence of operations. -/
def runOps (b : AgentBehavior) (s : SessionState) : List Op → SessionState
  | [] => s
  | op :: rest => runOps b (runOp b s op) rest

/-- The result of one generate click, if it succeeded. -/
def genSuccess (b : AgentBehavior) (s : SessionState) (a : GenArgs) : List GeneratedCopy :=
  match (generate_copy b s a).outcome with
  | .success r => [r]
  | _ => []

/-- The successful-generation results produced along an operation sequence,
in order. -/
def successResults (b : AgentBehavior) : SessionState → List Op → List GeneratedCopy
  | _, [] => []
  | s, op :: rest =>
    (match op with
     | .generate a => genSuccess b s a
     | _ => []) ++ successResults b (runOp b s op) rest

/-! ### Concrete sample values used by witnesses -/

def sampleGuidelines : BrandGuidelines :=
  { brand_name := "YourBrand"
    tone_of_voice := ["Professional", "Friendly"]
    key_messaging := ["We deliver exceptional results"]
    avoid_words := ["cheap", "basic", "simple"]
    preferred_words := ["premium", "advanced"]
    style_rules := [("max_sentence_length", "20 words")]
    target_audience := "Business professionals" }

def sampleCopy : GeneratedCopy :=
  { content := .plain "Introducing the premium widget."
    word_count := 4
    compliance_score := 9/10
    timestamp := "2026-10-12T10:00:00"
    request_id := "req-000001"
    metadata := [("request_type", "Product Launch")] }

def sampleArgs : GenArgs :=
  { content_type := "Product Launch"
    text_input := "A premium widget for professionals"
    uploaded_files := []
    context := ""
    reference_copies := ""
    format_type := "paragraph"
    min_length := 10
    max_length := 50
    required_columns := []
    copy_tone := "professional"
    cta_required := false }

def sampleState : SessionState :=
  initialize_agent sampleGuidelines initialState

def okBehavior : AgentBehavior := fun _ _ => .ok sampleCopy

def failBehavior : AgentBehavior := fun _ _ => .error "model overloaded"

/-! ### Helper lemmas -/

theorem pyLower_empty_iff (s : String) : pyLower s = "" ↔ s = "" := by
  cases s with
  | mk data =>
    simp [pyLower, String.ext_iff]

theorem pyStrip_empty_of_all_space (l : List Char) (h : l.all pyIsSpace) :
    pyStripList l = [] := by
  have h1 : l.dropWhile pyIsSpace = [] := by
    rw [List.dropWhile_eq_nil_iff]
    intro x hx
    exact List.all_eq_true.mp h x hx
  simp [pyStripList, h1]

theorem splitOnChar_ne_nil (sep : Char) (l : List Char) : splitOnChar sep l ≠ [] := by
  cases l with
  | nil => simp [splitOnChar]
  | cons c rest =>
    by_cases h : c == sep
    · simp [splitOnChar, h]
    · simp only [splitOnChar, h]
      cases splitOnChar sep rest <;> simp

theorem splitOnChar_mem_subset (sep : Char) (l : List Char) (p : List Char)
    (hp : p ∈ splitOnChar sep l) (c : Char) (hc : c ∈ p) : c ∈ l := by
  induction l generalizing p with
  | nil =>
    simp [splitOnChar] at hp
    subst hp
    simp at hc
  | cons c0 rest ih =>
    by_cases h : c0 == sep
    · simp only [splitOnChar, h, if_pos, List.mem_cons] at hp
      rcases hp with hp | hp
      · subst hp; simp at hc
      · exact List.mem_cons_of_mem c0 (ih p hp hc)
    · simp only [splitOnChar, h] at hp
      rcases hq : splitOnChar sep rest with _ | ⟨q, qs⟩
      · exact absurd hq (splitOnChar_ne_nil sep rest)
      · rw [hq] at hp
        rcases List.mem_cons.mp hp with hp | hp
        · subst hp
          rcases List.mem_cons.mp hc with hc | hc
          · exact hc ▸ List.mem_cons_self c0 rest
          · refine List.mem_cons_of_mem c0 (ih q ?_ hc)
            rw [hq]
            exact List.mem_cons_self q qs
        · refine List.mem_cons_of_mem c0 (ih p ?_ hc)
          rw [hq]
          exact List.mem_cons_of_mem q hp

theorem pyStrip_empty_of_all_space_str (s : String) (h : s.data.all pyIsSpace) :
    pyStrip s = "" := by
  cases s with
  | mk data =>
    simp only [pyStrip]
    rw [pyStrip_empty_of_all_space data h]

theorem filterMap_strip_lower (l : List String) :
    (l.filterMap fun word =>
        if pyStrip word = "" then none else some (pyLower (pyStrip word))) =
      (l.map fun word => pyLower (pyStrip word)).filter fun t => t != "" := by
  induction l with
  | nil => rfl
  | cons w rest ih =>
    by_cases h : pyStrip w = ""
    · have h2 : pyLower "" = "" := rfl
      simp [List.filterMap_cons, List.filter_cons, h, h2, ih]
    · have h2 : pyLower (pyStrip w) ≠ "" := fun hc => h ((pyLower_empty_iff _).mp hc)
      simp [List.filterMap_cons, List.filter_cons, h, h2, ih]

theorem filterMap_strip (l : List String) :
    (l.filterMap fun ref => if pyStrip ref = "" then none else some (pyStrip ref)) =
      (l.map pyStrip).filter fun t => t != "" := by
  induction l with
  | nil => rfl
  | cons w rest ih =>
    by_cases h : pyStrip w = ""
    · simp [List.filterMap_cons, List.filter_cons, h, ih]
    · simp [List.filterMap_cons, List.filter_cons, h, ih]

theorem settingsClearStep_eq (clicked : ButtonClick) (h : List GeneratedCopy) :
    settingsClearStep clicked h = h := by
  cases clicked <;> rfl

theorem generate_copy_history (b : AgentBehavior) (s : SessionState) (a : GenArgs) :
    (generate_copy b s a).state.copy_history = s.copy_history ++ genSuccess b s a := by
  by_cases h : pyStrip a.text_input = ""
  · simp [generate_copy, genSuccess, h]
  · cases hag : s.agent with
    | none => simp [generate_copy, genSuccess, h, hag]
    | some ag =>
      cases hb : b ag.guidelines (buildRequest a) with
      | ok r => simp [generate_copy, genSuccess, h, hag, hb]
      | error e => simp [generate_copy, genSuccess, h, hag, hb]

theorem runOp_history (b : AgentBehavior) (s : SessionState) (op : Op) :
    (runOp b s op).copy_history = s.copy_history ++
      (match op with
       | .generate a => genSuccess b s a
       | _ => []) := by
  cases op with
  | generate a => exact generate_copy_history b s a
  | settingsClick btn => simp [runOp, settingsClearStep_eq]
  | saveGuidelines g => simp [runOp, initialize_agent]
  | view => simp [runOp]

/-! ### Claim theorems -/

/-- Claim C1: a generation request whose main content is empty or
whitespace-only makes no agent call, leaves the whole session state (in
particular the history) unchanged, and reports the inline validation
error of line 217. -/
theorem generate_rejects_blank_main_content (b : AgentBehavior) (s : SessionState)
    (a : GenArgs) (h : pyStrip a.text_input = "") :
    generate_copy b s a =
      ⟨s, .validationError "Please provide main content/description.", []⟩ := by
  simp [generate_copy, h]

/-- Witness for C1 at the concrete whitespace-only input. -/
theorem generate_rejects_blank_main_content_witness :
    generate_copy okBehavior sampleState { sampleArgs with text_input := "   " } =
      ⟨sampleState, .validationError "Please provide main content/description.", []⟩ :=
  generate_rejects_blank_main_content okBehavior sampleState
    { sampleArgs with text_input := "   " } (by decide)

/-- Claim C2: when the agent call returns a copy without raising, the
history grows by exactly one entry, the returned record is appended at the
end, and all previous entries are kept unchanged in order. -/
theorem generate_success_appends_history (b : AgentBehavior) (s : SessionState)
    (a : GenArgs) (ag : MultiModalCopyAgent) (r : GeneratedCopy)
    (hmain : pyStrip a.text_input ≠ "")
    (hagent : s.agent = some ag)
    (hok : b ag.guidelines (buildRequest a) = .ok r) :
    (generate_copy b s a).state.copy_history = s.copy_history ++ [r] ∧
    (generate_copy b s a).state.copy_history.length = s.copy_history.length + 1 ∧
    (generate_copy b s a).outcome = .success r := by
  simp [generate_copy, hmain, hagent, hok]

/-- Witness for C2 at a concrete successful generation. -/
theorem generate_success_appends_history_witness :
    (generate_copy okBehavior sampleState sampleArgs).state.copy_history =
        sampleState.copy_history ++ [sampleCopy] ∧
    (generate_copy okBehavior sampleState sampleArgs).state.copy_history.length =
        sampleState.copy_history.length + 1 ∧
    (generate_copy okBehavior sampleState sampleArgs).outcome = .success sampleCopy :=
  generate_success_appends_history okBehavior sampleState sampleArgs
    ⟨sampleGuidelines⟩ sampleCopy (by decide) rfl rfl

/-- Claim C4: when the agent call raises, the error is caught at the single
call site, its message is surfaced as a user-visible error, and the session
state (history, agent handle, brand guidelines) is left unchanged. -/
theorem generate_agent_error_atomic (b : AgentBehavior) (s : SessionState)
    (a : GenArgs) (ag : MultiModalCopyAgent) (e : String)
    (hmain : pyStrip a.text_input ≠ "")
    (hagent : s.agent = some ag)
    (herr : b ag.guidelines (buildRequest a) = .error e) :
    (generate_copy b s a).state = s ∧
    (generate_copy b s a).state.copy_history = s.copy_history ∧
    (generate_copy b s a).state.agent = s.agent ∧
    (generate_copy b s a).state.brand_guidelines = s.brand_guidelines ∧
    (generate_copy b s a).outcome = .agentError ("Error generating copy: " ++ e) := by
  simp [generate_copy, hmain, hagent, herr]

/-- Witness for C4 at a concrete failing agent behavior. -/
theorem generate_agent_error_atomic_witness :
    (generate_copy failBehavior sampleState sampleArgs).state = sampleState ∧
    (generate_copy failBehavior sampleState sampleArgs).state.copy_history =
        sampleState.copy_history ∧
    (generate_copy failBehavior sampleState sampleArgs).state.agent = sampleState.agent ∧
    (generate_copy failBehavior sampleState sampleArgs).state.brand_guidelines =
        sampleState.brand_guidelines ∧
    (generate_copy failBehavior sampleState sampleArgs).outcome =
        .agentError ("Error generating copy: " ++ "model overloaded") :=
  generate_agent_error_atomic failBehavior sampleState sampleArgs
    ⟨sampleGuidelines⟩ "model overloaded" (by decide) rfl rfl

def copyA : GeneratedCopy := { sampleCopy with request_id := "req-A" }

def copyB : GeneratedCopy := { sampleCopy with request_id := "req-B" }

def copyC : GeneratedCopy := { sampleCopy with request_id := "req-C" }

/-- Claim C3 evaluated at its failing input: with history `[A, B, C]`, a
rerun where the clear button was clicked followed by a rerun where the
confirm button was clicked leaves the history at `[A, B, C]`, not `[]`.
The nested `st.button` at line 434 is reached only in the rerun the clear
click triggered, where it returns `False`; in the rerun the confirm click
triggered, the outer `st.button` at line 433 returns `False`, so line 435
never executes. -/
theorem clear_then_confirm_leaves_history :
    settingsClearStep .confirmClearHistory
        (settingsClearStep .clearHistory [copyA, copyB, copyC]) = [copyA, copyB, copyC] ∧
    [copyA, copyB, copyC] ≠ ([] : List GeneratedCopy) := by
  exact ⟨rfl, by decide⟩

/-- Claim C5: for a non-empty history, the displayed average compliance
score and average word count are the arithmetic means of the
`compliance_score` and `word_count` fields over the entire history list. -/
theorem averages_over_full_history (h : List GeneratedCopy) (_hne : h ≠ []) :
    avg_compliance h = arithmeticMean (h.map fun c => c.compliance_score) ∧
    avg_words h = arithmeticMean (h.map fun c => (c.word_count : ℚ)) := by
  constructor <;> simp [avg_compliance, avg_words, arithmeticMean]

def exampleHistory : List GeneratedCopy :=
  [{ sampleCopy with compliance_score := 4/5, word_count := 100 },
   { sampleCopy with compliance_score := 3/5, word_count := 50 }]

/-- Witness for C5 at the spec example: compliance scores `[0.8, 0.6]`
average to `0.7`, word counts `[100, 50]` average to `75`. -/
theorem averages_over_full_history_witness :
    (avg_compliance exampleHistory =
        arithmeticMean (exampleHistory.map fun c => c.compliance_score) ∧
      avg_words exampleHistory =
        arithmeticMean (exampleHistory.map fun c => (c.word_count : ℚ))) ∧
    avg_compliance exampleHistory = 7/10 ∧
    avg_words exampleHistory = 75 :=
  ⟨averages_over_full_history exampleHistory (by decide),
   by norm_num [avg_compliance, exampleHistory],
   by norm_num [avg_words, exampleHistory]⟩

/-- Counterexample to claim C6 as stated: the source splits the avoid/prefer
word input on commas only, so an input containing a newline yields a single
token carrying the newline, where splitting on commas and newlines would
yield two tokens. -/
theorem word_list_newline_counterexample :
    processWordList "premium\nadvanced" = ["premium\nadvanced"] ∧
    specWordList "premium\nadvanced" = ["premium", "advanced"] ∧
    processWordList "premium\nadvanced" ≠ specWordList "premium\nadvanced" := by
  exact ⟨by decide, by decide, by decide⟩

/-- Claim C6 as amended: the stored word list is obtained by splitting the
raw input on commas (only), trimming each token, lowercasing it, and
dropping the tokens that are empty after trimming. -/
theorem word_list_comma_only (s : String) :
    processWordList s =
      ((pySplit ',' s).map fun word => pyLower (pyStrip word)).filter fun t => t != "" := by
  simp only [processWordList]
  exact filterMap_strip_lower (pySplit ',' s)

/-- Claim C7: across any sequence of program operations, the history is
exactly the original history followed by the successful-generation results
in insertion order — nothing is ever removed, reordered or deduplicated
(the clear-history click pair included, which on this code never removes
anything). -/
theorem history_is_success_log (b : AgentBehavior) (s : SessionState) (ops : List Op) :
    (runOps b s ops).copy_history = s.copy_history ++ successResults b s ops := by
  induction ops generalizing s with
  | nil => simp [runOps, successResults]
  | cons op rest ih =>
    simp only [runOps, successResults]
    rw [ih, runOp_history]
    cases op <;> simp

theorem parseEntry_exportEntry (c : GeneratedCopy) :
    parseEntry (exportEntry c) = some ⟨(c.word_count : ℚ), c.compliance_score⟩ := by
  simp [parseEntry, exportEntry, lookupField]

/-- Claim C8: exporting the history to JSON and re-parsing the export
yields one entry per history entry, and the i-th parsed entry carries
exactly the i-th history entry's `word_count` and `compliance_score`. -/
theorem export_reparse_roundtrip (h : List GeneratedCopy) :
    parseExport (exportHistory h) =
      some (h.map fun c => ⟨(c.word_count : ℚ), c.compliance_score⟩) ∧
    (h.map fun c => (⟨(c.word_count : ℚ), c.compliance_score⟩ : ParsedEntry)).length =
      h.length := by
  refine ⟨?_, by simp⟩
  induction h with
  | nil => rfl
  | cons c rest ih =>
    simp only [exportHistory, parseExport, List.map_cons, List.mapM_cons] at ih ⊢
    rw [parseEntry_exportEntry]
    simp only [Option.bind_eq_bind, Option.some_bind] at ih ⊢
    rw [ih]
    rfl

/-- Claim C9: saving brand guidelines replaces the agent handle with a new
agent constructed from exactly the new guidelines, stores those guidelines
as the active ones, and any subsequent generate call that reaches the agent
invokes it with the new guidelines. -/
theorem save_guidelines_replaces_agent (g : BrandGuidelines) (s : SessionState) :
    (initialize_agent g s).agent = some ⟨g⟩ ∧
    (initialize_agent g s).brand_guidelines = some g ∧
    ∀ (b : AgentBehavior) (a : GenArgs), pyStrip a.text_input ≠ "" →
      (generate_copy b (initialize_agent g s) a).agentCalls = [(g, buildRequest a)] := by
  refine ⟨rfl, rfl, fun b a hmain => ?_⟩
  cases hb : b g (buildRequest a) <;>
    simp [generate_copy, initialize_agent, hmain, hb]

/-- Witness for C9 at concrete guidelines, state and request. -/
theorem save_guidelines_replaces_agent_witness :
    (initialize_agent sampleGuidelines initialState).agent = some ⟨sampleGuidelines⟩ ∧
    (initialize_agent sampleGuidelines initialState).brand_guidelines =
        some sampleGuidelines ∧
    (generate_copy okBehavior (initialize_agent sampleGuidelines initialState)
        sampleArgs).agentCalls = [(sampleGuidelines, buildRequest sampleArgs)] :=
  ⟨(save_guidelines_replaces_agent sampleGuidelines initialState).1,
   (save_guidelines_replaces_agent sampleGuidelines initialState).2.1,
   (save_guidelines_replaces_agent sampleGuidelines initialState).2.2
     okBehavior sampleArgs (by decide)⟩

/-- Claim C10: the `reference_copies` field of the built request is `None`
exactly when the raw reference text is the empty string; a non-empty
whitespace-only text gives the empty list; and in general a non-empty text
gives the ordered list of its non-blank lines, each trimmed. -/
theorem reference_copies_field_cases (s : String) :
    (s = "" → referenceCopiesField s = none) ∧
    (s ≠ "" → referenceCopiesField s ≠ none) ∧
    (s ≠ "" → s.data.all pyIsSpace → referenceCopiesField s = some []) ∧
    (s ≠ "" → referenceCopiesField s =
        some (((pySplit '\n' s).map pyStrip).filter fun t => t != "")) := by
  refine ⟨?_, ?_, ?_, ?_⟩
  · intro h
    subst h
    rfl
  · intro h
    simp [referenceCopiesField, h]
  · intro h hsp
    rw [referenceCopiesField, if_pos h]
    congr 1
    rw [List.filterMap_eq_nil_iff]
    intro piece hpiece
    rcases List.mem_map.mp hpiece with ⟨chars, hchars, hmk⟩
    have hall : chars.all pyIsSpace := by
      rw [List.all_eq_true]
      intro c hc
      exact List.all_eq_true.mp hsp c (splitOnChar_mem_subset '\n' s.data chars hchars c hc)
    have : pyStrip piece = "" := by
      rw [← hmk]
      exact pyStrip_empty_of_all_space_str ⟨chars⟩ hall
    simp [this]
  · intro h
    rw [referenceCopiesField, if_pos h]
    congr 1
    exact filterMap_strip (pySplit '\n' s)

/-- Witness for C10 at the three concrete shapes of reference text. -/
theorem reference_copies_field_cases_witness :
    referenceCopiesField "" = none ∧
    referenceCopiesField " \n  " = some [] ∧
    referenceCopiesField " alpha \n\nbeta" = some ["alpha", "beta"] :=
  ⟨(reference_copies_field_cases "").1 rfl,
   (reference_copies_field_cases " \n  ").2.2.1 (by decide) (by decide),
   by
     rw [(reference_copies_field_cases " alpha \n\nbeta").2.2.2 (by decide)]
     decide⟩

end Copybot
